import Mathlib

/-!
Shallow embedding of the GeoAnki userscript (src/GeoAnki-1.0.0.user.js and the
unnamed sibling script src/unnamed/part_000, called "v2" below).  JavaScript
numbers are modelled as rationals extended with NaN and the two infinities;
strings as Lean strings; absent / `null` / `undefined` values as `Option`.
JS truthiness of a string value is `jsTruthy` (absent and `""` are falsy).
-/

namespace GeoAnki

/-- A JavaScript number: NaN, +Infinity, -Infinity, or a finite value
(modelled exactly as a rational). -/
inductive JsNum
  | nan
  | posInf
  | negInf
  | fin (q : ℚ)
deriving DecidableEq

/-- JS `isNaN` on an already-numeric value: true only for NaN
(note `isNaN(Infinity)` is `false` in JS). -/
def JsNum.isNaN : JsNum → Bool
  | .nan => true
  | _ => false

/-- JS `Math.min` restricted to two arguments: NaN-propagating minimum. -/
def jsMin : JsNum → JsNum → JsNum
  | .nan, _ => .nan
  | _, .nan => .nan
  | .negInf, _ => .negInf
  | _, .negInf => .negInf
  | .posInf, b => b
  | a, .posInf => a
  | .fin p, .fin q => .fin (min p q)

/-- JS `Math.max` restricted to two arguments: NaN-propagating maximum. -/
def jsMax : JsNum → JsNum → JsNum
  | .nan, _ => .nan
  | _, .nan => .nan
  | .posInf, _ => .posInf
  | _, .posInf => .posInf
  | .negInf, b => b
  | a, .negInf => a
  | .fin p, .fin q => .fin (max p q)

/-- `Math.max(lo, Math.min(hi, x))`, the clamping pattern used by
`sanitizeCoordinates`. -/
def clampJs (lo hi : ℚ) (x : JsNum) : JsNum :=
  jsMax (.fin lo) (jsMin (.fin hi) x)

/-- A sanitized coordinate pair (the `{lat, lng}` object). -/
structure Coord where
  lat : ℚ
  lng : ℚ
deriving DecidableEq

/-- Source: `sanitizeCoordinates(lat, lng)` (user.js lines 110-123, v2 lines
186-199).  The JS code first applies `parseFloat`; we model the inputs as the
already-parsed numeric values (`parseFloat` of a non-numeric string is NaN).
Only NaN is rejected; the clamp of any non-NaN value is finite, so the
catch-all arm of the match is unreachable. -/
def sanitizeCoordinates (lat lng : JsNum) : Option Coord :=
  if lat.isNaN || lng.isNaN then none
  else
    match clampJs (-90) 90 lat, clampJs (-180) 180 lng with
    | .fin a, .fin b => some ⟨a, b⟩
    | _, _ => none

/-- Truthiness of a JS string-or-absent value: `null`/`undefined` and `""`
are falsy, any other string is truthy. -/
def jsTruthy : Option String → Bool
  | none => false
  | some s => !(s == "")

/-- JS `a || b` on string-or-absent values (used for patterns like
`data.address.state || data.address.county || null`). -/
def jsStrOr (a : Option String) (d : String) : String :=
  match a with
  | some s => if s == "" then d else s
  | none => d

/-- Template interpolation of a possibly-absent string: JS renders
`undefined` literally. -/
def jsShow (a : Option String) : String :=
  a.getD "undefined"

/-- Enrichment data (the `additionalInfo` object).  Absent fields are `none`;
the code also uses explicit "Unknown" sentinels, which stay as strings. -/
structure AdditionalInfo where
  tld : Option String := none
  drivingSide : Option String := none
  languages : Option (List String) := none
  currency : Option String := none
  flagUrl : Option String := none
  continent : Option String := none
  capital : Option String := none
deriving DecidableEq

/-- A country fact (the `countryData` object).  The raw `details` blob
(`data.address`) is carried only opaquely by the source and is not read by
any verified operation, so it is omitted here. -/
structure CountryData where
  country : String
  countryCode : Option String := none
  state : Option String := none
  city : Option String := none
  additionalInfo : Option AdditionalInfo := none
deriving DecidableEq

/-- An entry of the `COUNTRY_OVERRIDES` table. -/
structure OverrideEntry where
  centerLat : ℚ
  centerLng : ℚ
  tolerance : Option ℚ
  country : String
  countryCode : String
  additionalInfo : AdditionalInfo
deriving DecidableEq

/-- The single override entry of the shipped table (both scripts, identical):
center (40.97989806962013, -67.5), tolerance 0.2, Guatemala. -/
def guatemalaOverride : OverrideEntry :=
  { centerLat := 40.97989806962013
    centerLng := -67.5
    tolerance := some 0.2
    country := "Guatemala"
    countryCode := "GT"
    additionalInfo :=
      { tld := some ".gt"
        drivingSide := some "right"
        languages := some ["Spanish"]
        currency := some "Guatemalan quetzal"
        continent := some "North America"
        capital := some "Guatemala City" } }

/-- The static `COUNTRY_OVERRIDES` configuration list. -/
def COUNTRY_OVERRIDES : List OverrideEntry := [guatemalaOverride]

/-- Effective tolerance of an entry: `override.tolerance || 0.1`
(JS `||`: both an absent and a zero tolerance fall back to 0.1). -/
def effectiveTolerance (o : OverrideEntry) : ℚ :=
  match o.tolerance with
  | some t => if t = 0 then 0.1 else t
  | none => 0.1

/-- Source: `checkCountryOverride(lat, lng)` (user.js lines 275-285, v2 lines
283-293): first entry whose center is within tolerance in both components
(Chebyshev distance) wins. -/
def checkCountryOverride (lat lng : ℚ) : Option OverrideEntry :=
  COUNTRY_OVERRIDES.find? fun o =>
    decide (|lat - o.centerLat| ≤ effectiveTolerance o) &&
    decide (|lng - o.centerLng| ≤ effectiveTolerance o)

/-- The country fact built from an override entry (the object literal repeated
at every override-application site; its `details` blob is omitted, see
`CountryData`). -/
def overrideCountryData (o : OverrideEntry) : CountryData :=
  { country := o.country
    countryCode := some o.countryCode
    state := none
    city := none
    additionalInfo := some o.additionalInfo }

/-- Is `c` an ASCII hexadecimal digit (the `[0-9a-fA-F]` class)? -/
def isHexDigitChar (c : Char) : Bool :=
  (48 ≤ c.toNat && c.toNat ≤ 57) ||
  (97 ≤ c.toNat && c.toNat ≤ 102) ||
  (65 ≤ c.toNat && c.toNat ≤ 70)

/-- Numeric value of a hexadecimal digit. -/
def hexVal (c : Char) : Nat :=
  if 48 ≤ c.toNat && c.toNat ≤ 57 then c.toNat - 48
  else if 97 ≤ c.toNat && c.toNat ≤ 102 then c.toNat - 87
  else if 65 ≤ c.toNat && c.toNat ≤ 70 then c.toNat - 55
  else 0

/-- The loop body of `panoIdDecoder`: consume two hex digits at a time,
emitting `String.fromCharCode(parseInt(pair, 16))`; a trailing odd digit is
dropped (`if (i + 1 >= length) break`). -/
def decodePairs : List Char → List Char
  | c1 :: c2 :: rest => Char.ofNat (16 * hexVal c1 + hexVal c2) :: decodePairs rest
  | _ => []

/-- Source: `panoIdDecoder(geoguessrPanoId)` (user.js lines 402-423, v2 lines
432-453): empty (falsy) input and input failing the `^[0-9a-fA-F]+$` test
yield `""`; otherwise hex pairs are decoded. -/
def panoIdDecoder (s : String) : String :=
  if s == "" then ""
  else if !(s.data.all isHexDigitChar) then ""
  else String.mk (decodePairs s.data)

/-- A generated clue (`{category, clue}` object). -/
structure Clue where
  category : String
  clue : String
deriving DecidableEq

/-- The `coverage` object of a location-overview response; `covType` models
its `type` property. -/
structure OverviewCoverage where
  covType : Option String := none
deriving DecidableEq

/-- The projections of a `locationOverview` response that the code reads. -/
structure Overview where
  region : Option String := none
  coverage : Option OverviewCoverage := none
deriving DecidableEq

/-- One entry of `gameState.roundLocations` (the per-round record). -/
structure RoundData where
  panoId : Option String := none
  location : Option Coord := none
  heading : ℚ := 0
  pitch : ℚ := 0
  zoom : ℚ := 0
  country : Option String := none
  countryData : Option CountryData := none
  guessLocation : Option Coord := none
  guessCountry : Option String := none
  guessCountryData : Option CountryData := none
  score : ℚ := 0
  missedClues : List Clue := []
  locationOverview : Option Overview := none
  cardCreated : Bool := false
deriving DecidableEq

/-- Source: `isValidCoordinate(coord)` (user.js lines 461-466, v2 lines
491-496).  In the rational model the NaN checks are vacuous. -/
def isValidCoordinate : Option Coord → Bool
  | some c => decide (|c.lat| ≤ 90) && decide (|c.lng| ≤ 180)
  | none => false

/-- Source: `arraysHaveSameElements(arr1, arr2)` (user.js lines 1110-1118, v2
lines 1607-1615): equal length and every element of `arr2` is a member of
`arr1` (a `Set` built from `arr1`); note this is NOT set equality. -/
def arraysHaveSameElements (arr1 arr2 : List String) : Bool :=
  if arr1.length ≠ arr2.length then false
  else arr2.all fun item => decide (item ∈ arr1)

/-- The driving-side clue of `prepareCountryClues` (emitted when both facts
carry an `additionalInfo` and the `drivingSide` properties differ). -/
def drivingClue (r : RoundData) : Option Clue :=
  match r.countryData, r.guessCountryData with
  | some cd, some gd =>
    match cd.additionalInfo, gd.additionalInfo with
    | some ai, some gi =>
      if ai.drivingSide ≠ gi.drivingSide then
        some ⟨"Driving Side",
          jsShow r.country ++ " drives on the " ++ jsShow ai.drivingSide ++
          " side of the road (" ++ jsShow r.guessCountry ++ " drives on the " ++
          jsShow gi.drivingSide ++ " side)."⟩
      else none
    | _, _ => none
  | _, _ => none

/-- The language clue of `prepareCountryClues` (emitted when both language
arrays exist and `arraysHaveSameElements` is false). -/
def langClue (r : RoundData) : Option Clue :=
  match r.countryData, r.guessCountryData with
  | some cd, some gd =>
    match cd.additionalInfo, gd.additionalInfo with
    | some ai, some gi =>
      match ai.languages, gi.languages with
      | some actualLangs, some guessLangs =>
        if !(arraysHaveSameElements actualLangs guessLangs) then
          some ⟨"Language",
            jsShow r.country ++ "\x27s language(s): " ++
            String.intercalate ", " actualLangs ++ " (different from " ++
            jsShow r.guessCountry ++ "\x27s: " ++
            String.intercalate ", " guessLangs ++ ")"⟩
        else none
      | _, _ => none
    | _, _ => none
  | _, _ => none

/-- The top-level-domain clue of `prepareCountryClues`. -/
def tldClue (r : RoundData) : Option Clue :=
  match r.countryData, r.guessCountryData with
  | some cd, some gd =>
    match cd.additionalInfo, gd.additionalInfo with
    | some ai, some gi =>
      if ai.tld ≠ gi.tld then
        some ⟨"Internet TLD",
          jsShow r.country ++ "\x27s internet domain is " ++ jsShow ai.tld ++
          " (" ++ jsShow r.guessCountry ++ "\x27s is " ++ jsShow gi.tld ++ ")."⟩
      else none
    | _, _ => none
  | _, _ => none

/-- The geographic-region clue (emitted when `locationOverview.region` is
truthy). -/
def regionClue (r : RoundData) : Option Clue :=
  match r.locationOverview with
  | some ov =>
    if jsTruthy ov.region then
      some ⟨"Geographic Region",
        "This location is in the " ++ jsShow ov.region ++ " region of " ++
        jsShow r.country ++ "."⟩
    else none
  | none => none

/-- The coverage-type clue (emitted when `locationOverview.coverage.type` is
truthy). -/
def coverageClue (r : RoundData) : Option Clue :=
  match r.locationOverview with
  | some ov =>
    match ov.coverage with
    | some cov =>
      if jsTruthy cov.covType then
        some ⟨"Coverage Type",
          "This is " ++ jsShow cov.covType ++ " coverage in " ++
          jsShow r.country ++ "."⟩
      else none
    | none => none
  | none => none

/-- The generic reminder clue appended when fewer than 2 clues accumulated. -/
def genericClue (r : RoundData) : Clue :=
  ⟨"General Appearance",
    "Pay closer attention to license plates, road markings, and signage in " ++
    jsShow r.country ++ " to distinguish it from " ++ jsShow r.guessCountry ++ "."⟩

/-- The clues pushed by the body of `prepareCountryClues`, in source order. -/
def cluesBase (r : RoundData) : List Clue :=
  (drivingClue r).toList ++ (langClue r).toList ++ (tldClue r).toList ++
  (regionClue r).toList ++ (coverageClue r).toList

/-- The clue list computed by `prepareCountryClues(roundKey)` (user.js lines
1005-1108, v2 lines 1502-1605) on the exception-free path: clues are generated
only when both countries are truthy and differ, and a generic clue is appended
when fewer than 2 accumulated. -/
def cluesFor (r : RoundData) : List Clue :=
  if jsTruthy r.country && jsTruthy r.guessCountry &&
      !(decide (r.country = r.guessCountry)) then
    let base := cluesBase r
    if base.length < 2 then base ++ [genericClue r] else base
  else []

/-- `prepareCountryClues` as a record transformer: it unconditionally stores
the computed list into `roundData.missedClues`, replacing any previous list. -/
def prepareCountryClues (r : RoundData) : RoundData :=
  { r with missedClues := cluesFor r }

/-- The catch-block of `prepareCountryClues`: whatever clues were pushed before
the exception remain, and a single "General" fallback clue referencing
`roundData.country || "this country"` is appended. -/
def prepareCountryCluesOnError (r : RoundData) (partialClues : List Clue) :
    List Clue :=
  partialClues ++
    [⟨"General",
      "Pay attention to distinctive features in " ++
      jsStrOr r.country "this country" ++ "."⟩]

/-- The projections of a Nominatim reverse-geocoding response address that the
code reads (`none` models an overall failed / timed-out call at the caller). -/
structure NominatimAddress where
  country : Option String := none
  countryCode : Option String := none
  state : Option String := none
  county : Option String := none
  city : Option String := none
  town : Option String := none
  village : Option String := none
deriving DecidableEq

/-- The projections of a restcountries.com response entry that the code reads
(`currencyName` models `Object.values(currencies)[0].name`). -/
structure RestCountryInfo where
  tld : List String := []
  carSide : Option String := none
  languages : Option (List String) := none
  currencyName : Option String := none
  continents : List String := []
  capital : List String := []
deriving DecidableEq

/-- The `additionalInfo` construction of the geocoding path (user.js lines
1170-1202, v2 lines 1654-1687): "Unknown" defaults, replaced field by field
when a country code is available and the restcountries call succeeded. -/
def buildAdditionalInfo (countryCode : Option String)
    (rest : Option RestCountryInfo) : AdditionalInfo :=
  let dflt : AdditionalInfo :=
    { tld := some "Unknown", drivingSide := some "Unknown",
      languages := some ["Unknown"], currency := some "Unknown",
      flagUrl := none, continent := some "Unknown", capital := some "Unknown" }
  match countryCode with
  | none => dflt
  | some cc =>
    match rest with
    | none => dflt
    | some rd =>
      { tld := some (match rd.tld.head? with | some t => t | none => "Unknown")
        drivingSide := some (jsStrOr rd.carSide "Unknown")
        languages := some (match rd.languages with | some l => l | none => ["Unknown"])
        currency := some (jsStrOr rd.currencyName "Unknown")
        flagUrl := some ("https://flagcdn.com/w320/" ++ cc.toLower ++ ".png")
        continent := some (match rd.continents.head? with | some c => c | none => "Unknown")
        capital := some (match rd.capital.head? with | some c => c | none => "Unknown") }

/-- The observable outcome of one call to a country resolver: the value the
JS function's promise resolves to (`none` = `null`/`undefined`), whether a
reverse-geocoding network request was issued, and which override entry (if
any) was applied via `processCountryOverride` / returned directly. -/
structure ResolveOutcome where
  returned : Option CountryData
  geocodeCalled : Bool
  overrideApplied : Option OverrideEntry
deriving DecidableEq

/-- The country fact assembled from a successful Nominatim (+ optional
restcountries) response, shared by both resolvers. -/
def geocodedCountryData (addr : NominatimAddress)
    (rest : Option RestCountryInfo) : CountryData :=
  let countryCode :=
    match addr.countryCode with
    | some cc => if cc == "" then none else some cc.toUpper
    | none => none
  { country := addr.country.getD ""
    countryCode := countryCode
    state := (if jsTruthy addr.state then addr.state
              else if jsTruthy addr.county then addr.county else none)
    city := (if jsTruthy addr.city then addr.city
             else if jsTruthy addr.town then addr.town
             else if jsTruthy addr.village then addr.village else none)
    additionalInfo := some (buildAdditionalInfo countryCode rest) }

/-- The geocoding tail shared by both resolvers: Nominatim call (hence
`geocodeCalled := true`), null on failure or missing `address.country`,
otherwise the assembled fact. -/
def geocodeTail (nominatim : Option NominatimAddress)
    (rest : Option RestCountryInfo) : ResolveOutcome :=
  match nominatim with
  | none => ⟨none, true, none⟩
  | some addr =>
    if !(jsTruthy addr.country) then ⟨none, true, none⟩
    else ⟨some (geocodedCountryData addr rest), true, none⟩

/-- Source: v2 `getCountryFromCoordinates(lat, lng, isGuess)` (lines
1618-1748), as an outcome function.  The override is consulted only when
`!isGuess`; on a hit the function merges the fact via `processCountryOverride`
and returns `undefined` without any network call.  The `isGuess`-dependent
state updates of lines 1700-1741 are modelled by `resolveGeocode` below. -/
def getCountryFromCoordinates (lat lng : JsNum) (isGuess : Bool)
    (nominatim : Option NominatimAddress) (rest : Option RestCountryInfo) :
    ResolveOutcome :=
  match sanitizeCoordinates lat lng with
  | none => ⟨none, false, none⟩
  | some _ =>
    let ov := match lat, lng with
      | .fin la, .fin lo => checkCountryOverride la lo
      | _, _ => none
    match ov, isGuess with
    | some o, false => ⟨none, false, some o⟩
    | _, _ => geocodeTail nominatim rest

/-- Source: v1 `getCountryInfoFromCoordinates(lat, lng)` (user.js lines
1121-1219): same pipeline, no role parameter; on an override hit the override
fact itself is returned without any network call. -/
def getCountryInfoFromCoordinates (lat lng : JsNum)
    (nominatim : Option NominatimAddress) (rest : Option RestCountryInfo) :
    ResolveOutcome :=
  match sanitizeCoordinates lat lng with
  | none => ⟨none, false, none⟩
  | some _ =>
    let ov := match lat, lng with
      | .fin la, .fin lo => checkCountryOverride la lo
      | _, _ => none
    match ov with
    | some o => ⟨some (overrideCountryData o), false, some o⟩
    | none => geocodeTail nominatim rest

/-- The store-relevant projection of `gameState`: the current round key, the
`roundLocations` map (an association list; records are never deleted), and the
current-state country mirrors that the geocode callbacks also write.
Coordinate mirrors and the follow-up `fetchLocationOverview` chain are outside
this model. -/
structure StoreState where
  currentRoundKey : Option String
  roundLocations : List (String × RoundData)
  actualCountry : Option String := none
  countryData : Option CountryData := none
  guessCountry : Option String := none
  guessCountryData : Option CountryData := none
deriving DecidableEq

/-- Lookup in `roundLocations`. -/
def lookupRecord (locs : List (String × RoundData)) (k : String) :
    Option RoundData :=
  (locs.find? fun p => p.1 == k).map (·.2)

/-- Point update of `roundLocations` (mutation of the record object stored
under `k`, if present). -/
def updateRecord (locs : List (String × RoundData)) (k : String)
    (f : RoundData → RoundData) : List (String × RoundData) :=
  locs.map fun p => if p.1 == k then (p.1, f p.2) else p

/-- A geocoding call that was issued but has not yet resolved, tagged by which
call site issued it (each site's callback writes the store differently). -/
inductive PendingGeocode
  /-- v2 `getCountryFromCoordinates` lines 1700-1741: the callback reads
  `gameState.currentRoundKey` at RESOLUTION time (generating one via the
  supplied key if absent) and writes that round's record. -/
  | roleUpdate (isGuess : Bool)
  /-- v1 `processGoogleMapsResponse` lines 584-599: the callback writes the
  record under `gameState.currentRoundKey` read at resolution time. -/
  | mapsActual
  /-- v1 `processLocationData` lines 836-858 and `processGeoGuessrApiResponse`
  lines 791-809: the guess callback captures the ISSUING round's record and
  writes it at resolution time. -/
  | v1Guess (issuedKey : String)
  /-- v1 `processLocationData` lines 903-924: the actual-country callback
  captures the issuing round's record. -/
  | v1Actual (issuedKey : String)
deriving DecidableEq

/-- Effect on the store of a pending geocoding call resolving with fact `cd`;
`genKey` models `generateRoundKey()` for the case where no current key exists
at resolution time. -/
def resolveGeocode (p : PendingGeocode) (cd : CountryData) (genKey : String)
    (s : StoreState) : StoreState :=
  match p with
  | .roleUpdate isGuess =>
    let key := match s.currentRoundKey with | some k => k | none => genKey
    let s := { s with currentRoundKey := some key }
    if isGuess then
      { s with
        roundLocations := updateRecord s.roundLocations key fun r =>
          { r with guessCountry := some cd.country, guessCountryData := some cd }
        guessCountry := some cd.country
        guessCountryData := some cd }
    else
      { s with
        roundLocations := updateRecord s.roundLocations key fun r =>
          { r with country := some cd.country, countryData := some cd }
        actualCountry := some cd.country
        countryData := some cd }
  | .mapsActual =>
    match s.currentRoundKey with
    | some k =>
      { s with
        roundLocations := updateRecord s.roundLocations k fun r =>
          { r with countryData := some cd, country := some cd.country }
        countryData := some cd
        actualCountry := some cd.country }
    | none => { s with countryData := some cd, actualCountry := some cd.country }
  | .v1Guess issuedKey =>
    { s with
      roundLocations := updateRecord s.roundLocations issuedKey fun r =>
        { r with guessCountryData := some cd, guessCountry := some cd.country }
      guessCountryData := some cd
      guessCountry := some cd.country }
  | .v1Actual issuedKey =>
    { s with
      roundLocations := updateRecord s.roundLocations issuedKey fun r =>
        { r with countryData := some cd, country := some cd.country }
      countryData := some cd
      actualCountry := some cd.country }

/-- Applying an override entry to a record (the record part of
`processCountryOverride`, v2 lines 1117-1145, and of the inline override
blocks of user.js). -/
def applyOverrideToRecord (o : OverrideEntry) (r : RoundData) : RoundData :=
  { r with country := some o.country, countryData := some (overrideCountryData o) }

/-- The basic country fact built by the DOM fallback of `handleRoundEnd`
(user.js lines 1581-1588, v2 lines 2173-2180). -/
def basicCountryDataFromDom (c : String) : CountryData :=
  { country := c
    countryCode := none
    additionalInfo := some { drivingSide := some "Unknown", continent := some "Unknown" } }

/-- The basic guess fact built by the DOM guess extraction of `handleRoundEnd`
(user.js lines 1607-1611, v2 lines 2199-2203): its `additionalInfo` is the
empty object `{}`. -/
def basicGuessDataFromDom (g : String) : CountryData :=
  { country := g, countryCode := none, additionalInfo := some ({} : AdditionalInfo) }

/-- Source: `handleRoundEnd()` (user.js lines 1502-1631) restricted to its
effect on the current round's record.  `existing` is
`gameState.roundLocations[roundKey]` (when absent a record is initialized from
the `gameState` mirrors, passed here as `mirror`); `domCountry` is the result
of `extractCountryFromDOM()` (`none` = `null`); `domGuess` is `match[1].trim()`
of the first result element matching `/You\s+guessed\s+([A-Za-z\s]+)/i`
(`none` = no match).  The function also resets the per-round user-reflection
fields and card flags outside the record, not modelled here. -/
def handleRoundEnd (existing : Option RoundData) (mirror : RoundData)
    (domCountry : Option String) (domGuess : Option String) : RoundData :=
  let r := existing.getD mirror
  let r :=
    if isValidCoordinate r.location then
      match r.location with
      | some c =>
        match checkCountryOverride c.lat c.lng with
        | some o => applyOverrideToRecord o r
        | none => r
      | none => r
    else r
  if !(jsTruthy r.country) then
    match domCountry with
    | some c =>
      if c == "" then r
      else
        let r := { r with country := some c }
        let r := if r.countryData.isNone
                 then { r with countryData := some (basicCountryDataFromDom c) }
                 else r
        let r := match domGuess with
          | some g =>
            { r with guessCountry := some g
                     guessCountryData := some (basicGuessDataFromDom g) }
          | none => r
        if r.missedClues.isEmpty then prepareCountryClues r else r
    | none => r
  else r

/-- JS `Math.round`: round half toward positive infinity. -/
def jsRound (q : ℚ) : ℤ := ⌊q + 1 / 2⌋

/-- Truncation toward zero (the quotient underlying the JS `%` operator). -/
def truncQ (q : ℚ) : ℤ := if q < 0 then ⌈q⌉ else ⌊q⌋

/-- JS remainder `a % b` (sign follows the dividend). -/
def ratJsMod (a b : ℚ) : ℚ := a - b * (truncQ (a / b) : ℚ)

/-- Decimal rendering of a natural number left-padded with zeros. -/
def natPad (n : Nat) (width : Nat) : String :=
  let s := toString n
  String.mk (List.replicate (width - s.length) '0') ++ s

/-- Model of JS `Number.prototype.toFixed(digits)`: decimal rounding half away
from zero (the binary artifacts of the float original are not modelled). -/
def toFixed (digits : ℕ) (q : ℚ) : String :=
  let n : ℕ := (jsRound (|q| * ((10 : ℚ) ^ digits))).toNat
  let ip := n / 10 ^ digits
  let fp := n % 10 ^ digits
  (if q < 0 then "-" else "") ++ toString ip ++
    (if digits = 0 then "" else "." ++ natPad fp digits)

/-- `parseFloat(q.toFixed(6))`: the value rounded to 6 decimals. -/
def round6 (q : ℚ) : ℚ :=
  if q < 0 then -((jsRound (-q * 1000000) : ℚ) / 1000000)
  else (jsRound (q * 1000000) : ℚ) / 1000000

/-- Drop trailing fractional zeros (and then a trailing dot). -/
def trimTrailingZeros (s : String) : String :=
  if s.data.contains '.' then
    let l := (s.data.reverse.dropWhile (fun c => c == '0')).reverse
    let l := if l.getLast? = some '.' then l.dropLast else l
    String.mk l
  else s

/-- Deterministic model of JS number-to-string conversion for a value known to
have at most `digits` decimals (as produced by the `Math.round(x*10^d)/10^d`
pattern): fixed rendering with trailing zeros trimmed. -/
def renderNum (digits : ℕ) (q : ℚ) : String :=
  trimTrailingZeros (toFixed digits q)

/-- Uppercase hexadecimal digit. -/
def hexDigitUpper (n : Nat) : Char :=
  if n < 10 then Char.ofNat (48 + n) else Char.ofNat (55 + n)

/-- Percent-encoding of one byte. -/
def percentByte (b : Nat) : List Char :=
  ['%', hexDigitUpper (b / 16), hexDigitUpper (b % 16)]

/-- The characters `encodeURIComponent` leaves unescaped. -/
def isUnreservedURI (c : Char) : Bool :=
  (65 ≤ c.toNat && c.toNat ≤ 90) || (97 ≤ c.toNat && c.toNat ≤ 122) ||
  (48 ≤ c.toNat && c.toNat ≤ 57) ||
  c == '-' || c == '_' || c == '.' || c == '!' || c == '~' || c == '*' ||
  c == '\x27' || c == '(' || c == ')'

/-- UTF-8 bytes of a scalar value. -/
def utf8Bytes (c : Char) : List Nat :=
  let n := c.toNat
  if n < 128 then [n]
  else if n < 2048 then [192 + n / 64, 128 + n % 64]
  else if n < 65536 then [224 + n / 4096, 128 + n / 64 % 64, 128 + n % 64]
  else [240 + n / 262144, 128 + n / 4096 % 64, 128 + n / 64 % 64, 128 + n % 64]

/-- Model of JS `encodeURIComponent`. -/
def encodeURIComponent (s : String) : String :=
  String.mk ((s.data.map fun c =>
    if isUnreservedURI c then [c]
    else ((utf8Bytes c).map percentByte).flatten).flatten)

/-- The plain (panoId-free) Street View link. -/
def simpleLink (c : Coord) : String :=
  "https://www.google.com/maps/@" ++ toFixed 6 c.lat ++ "," ++ toFixed 6 c.lng ++
  ",3a,90y,0h,0t/data=!3m1!1e1"

/-- Source: `createStreetViewLink(lat, lng, panoId, heading, pitch, zoom)`
(user.js lines 426-459, v2 lines 456-489).  `parseFloat(zoom) || 1` maps a
zero zoom to 1; heading is normalized into [0, 360), pitch clamped to
[-90, 90], zoom to [0, 4]. -/
def createStreetViewLink (lat lng : ℚ) (panoId : Option String)
    (heading pitch zoom : ℚ) : String :=
  match sanitizeCoordinates (.fin lat) (.fin lng) with
  | none => "#"
  | some coords =>
    let zoom : ℚ := if zoom = 0 then 1 else zoom
    let heading := ratJsMod (ratJsMod heading 360 + 360) 360
    let pitch := max (-90) (min 90 pitch)
    let zoom := max 0 (min 4 zoom)
    match panoId with
    | none => simpleLink coords
    | some pidRaw =>
      if pidRaw == "" then simpleLink coords
      else
        let pid := panoIdDecoder pidRaw
        if pid == "" then simpleLink coords
        else
          let h := (jsRound (heading * 100) : ℚ) / 100
          let p := (jsRound ((90 + pitch) * 100) : ℚ) / 100
          let z := (jsRound ((90 - zoom / (11 / 4 : ℚ) * 90) * 10) : ℚ) / 10
          "https://www.google.com/maps/@" ++ toFixed 6 coords.lat ++ "," ++
          toFixed 6 coords.lng ++ ",3a," ++ renderNum 1 z ++ "y," ++
          renderNum 2 h ++ "h," ++ renderNum 2 p ++
          "t/data=!3m6!1e1!3m4!1s" ++ encodeURIComponent pid ++
          "!2e0!7i13312!8i6656"

/-- The `mapsLink` preparation of `buildAnkiCardData` (user.js lines
1324-1348, v2 lines 1932-1956).  The source formats the coordinates with
`toFixed(6)` before handing them to `createStreetViewLink`, which re-parses
them; hence `round6`.  The final validation replaces a non-`http` result by
the `,12z` map link. -/
def mapsLinkFor (r : RoundData) : String :=
  if isValidCoordinate r.location then
    match r.location with
    | some c =>
      let lat := toFixed 6 c.lat
      let lng := toFixed 6 c.lng
      let link :=
        if jsTruthy r.panoId then
          createStreetViewLink (round6 c.lat) (round6 c.lng) r.panoId
            r.heading r.pitch r.zoom
        else
          "https://www.google.com/maps/@" ++ lat ++ "," ++ lng ++
          ",3a,90y,0h,0t/data=!3m1!1e1"
      if link == "" || link == "#" || !(link.startsWith "http") then
        "https://www.google.com/maps/@" ++ lat ++ "," ++ lng ++ ",12z"
      else link
    | none => "#"
  else "#"

/-- Case-insensitive prefix test (`pat` is given lowercase). -/
def ciStarts : List Char → List Char → Bool
  | [], _ => true
  | _ :: _, [] => false
  | p :: ps, c :: cs => p == c.toLower && ciStarts ps cs

/-- Does `l` begin with one of the keyword alternatives of the regex
`/has (.+?) (?:signs|poles|antennas|coverage)/i` (with its preceding space)? -/
def kwFollows (l : List Char) : Bool :=
  ciStarts " signs".data l || ciStarts " poles".data l ||
  ciStarts " antennas".data l || ciStarts " coverage".data l

/-- The lazy group `(.+?)`: grow the captured detail one character at a time
until a keyword follows. -/
def lazyDetail (acc : List Char) : List Char → Option (List Char)
  | [] => none
  | c :: cs =>
    if kwFollows cs then some (acc ++ [c]) else lazyDetail (acc ++ [c]) cs

/-- Leftmost-match scan for `has (.+?)<keyword>`. -/
def scanHas : List Char → Option (List Char)
  | [] => none
  | l@(_ :: cs) =>
    if ciStarts "has ".data l then
      match lazyDetail [] (l.drop 4) with
      | some d => some d
      | none => scanHas cs
    else scanHas cs

/-- Model of `clue.clue.match(/has (.+?) (?:signs|poles|antennas|coverage)/i)`,
returning the captured group of the leftmost match. -/
def matchHasDetail (s : String) : Option String :=
  (scanHas s.data).map String.mk

/-- The prefix of `s` before the first occurrence of `c`
(JS `s.split(c)[0]`). -/
def beforeChar (s : String) (c : Char) : String :=
  String.mk (s.data.takeWhile fun x => !(x == c))

/-- The category-filtered loop of `getSingleDistinctiveClue` (user.js lines
1464-1478, v2 lines 2074-2088): for each clue in a specific category, return
the regex capture if it matches, else the pre-parenthesis fragment if shorter
than 50 characters, else continue. -/
def clueLoop : List Clue → Option String
  | [] => none
  | c :: cs =>
    if ["Driving Side", "Language", "Coverage Type"].contains c.category then
      match matchHasDetail c.clue with
      | some d => some d
      | none =>
        let shortClue := (beforeChar c.clue '(').trim
        if shortClue.length < 50 then some shortClue else clueLoop cs
    else clueLoop cs

/-- Source: `getSingleDistinctiveClue(roundKey)` (user.js lines 1445-1499, v2
lines 2055-2109), taking the resolved record directly (`none` models a missing
round key or record).  Note the source compares `drivingSide !== "Unknown"`;
an absent driving side therefore passes the test and is rendered as
`undefined`. -/
def getSingleDistinctiveClue (roundData : Option RoundData) : String :=
  match roundData with
  | none => "distinctive local features"
  | some r =>
    let fromClues : Option String :=
      if r.missedClues.length > 0 then
        match clueLoop r.missedClues with
        | some ans => some ans
        | none =>
          match r.missedClues.head? with
          | some c0 =>
            if c0.clue == "" then none
            else
              let shortened := beforeChar c0.clue '.'
              some (if shortened.length < 40 then shortened
                    else "different road markings or signs")
          | none => none
      else none
    match fromClues with
    | some ans => ans
    | none =>
      match r.countryData with
      | some cd =>
        match cd.additionalInfo with
        | some ai =>
          if ai.drivingSide ≠ some "Unknown" then
            "drives on the " ++ jsShow ai.drivingSide ++ " side"
          else "distinctive local features"
        | none => "distinctive local features"
      | none => "distinctive local features"

/-- The settings the card pipeline reads. -/
structure Settings where
  hideLocationInFrontCard : Bool := true
  automaticCards : Bool := true
  instantAddEnabled : Bool := false
deriving DecidableEq

/-- The value returned by `buildAnkiCardData` (country fields keep the raw
record values, as in the source object literal). -/
structure CardData where
  frontField : String
  backField : String
  mapsLink : String
  actualCountry : Option String
  guessCountry : Option String
  roundKey : String
deriving DecidableEq

/-- `roundData.guessCountryData && roundData.guessCountryData.city ? city :
"Unknown location"` and its `countryData` twin. -/
def cityOr (cd : Option CountryData) : String :=
  match cd with
  | some c => jsStrOr c.city "Unknown location"
  | none => "Unknown location"

/-- `countryData && countryData.additionalInfo && additionalInfo.<f> ? :
"Unknown"`. -/
def aiFieldOr (cd : Option CountryData) (f : AdditionalInfo → Option String) :
    String :=
  match cd with
  | some c =>
    match c.additionalInfo with
    | some ai => jsStrOr (f ai) "Unknown"
    | none => "Unknown"
  | none => "Unknown"

/-- The `<li>` rows of the generated-clues section. -/
def cluesHtml (clues : List Clue) (country : String) : String :=
  if clues.length > 0 then
    (clues.map fun c =>
      if !(c.category == "") && !(c.clue == "") then
        "<li><strong>" ++ c.category ++ ":</strong> " ++ c.clue ++ "</li>"
      else "").foldl (· ++ ·) ""
  else
    "<li><strong>General:</strong> Pay attention to distinctive features in " ++
    country ++ ".</li>"

/-- The front/back text assembly shared by `buildAnkiCardData` of both scripts
(user.js lines 1324-1442, v2 lines 1932-2052; the texts agree up to the
mojibake of the v2 file's double-encoded emoji, rendered here once).
`useDefaults` disables the user-override substitutions, as in v2. -/
def assembleCard (roundKey : String) (rd : RoundData)
    (userMissedClues userReminder : String) (st : Settings)
    (useDefaults : Bool) : CardData :=
  let c := jsShow rd.country
  let g := jsShow rd.guessCountry
  let mapsLink := mapsLinkFor rd
  let guessCity := cityOr rd.guessCountryData
  let actualCity := cityOr rd.countryData
  let continent := aiFieldOr rd.countryData (·.continent)
  let drivingSide := aiFieldOr rd.countryData (·.drivingSide)
  let flagHtml :=
    match rd.countryData with
    | some cd =>
      match cd.countryCode with
      | some code =>
        if code == "" then ""
        else
          " <img src=\"https://flagcdn.com/w320/" ++ code.toLower ++
          ".png\" class=\"flag-image\" alt=\"Flag of " ++ c ++
          "\" onerror=\"this.style.display=\x27none\x27\">"
      | none => ""
    | none => ""
  let frontField :=
    if !(mapsLink == "") && !(mapsLink == "#") && !st.hideLocationInFrontCard then
      "You guessed " ++ g ++ ", but the correct answer was " ++ c ++
      ". What clues did you miss? 🌍<br><br>\n🔗 <a href=\"" ++ mapsLink ++
      "\" target=\"_blank\">Google Maps Link: View Correct Location</a>"
    else
      "You guessed " ++ g ++ ", but the correct answer was " ++ c ++
      ". What clues did you miss? 🌍"
  let backField :=
    "<h3>✅ Correct Answer: <strong>" ++ c ++ "</strong>" ++ flagHtml ++
    "</h3>\n<h3>❌ Mistake: Guessed " ++ g ++
    "</h3>\n\n<p>📍 <strong>Your Guess:</strong> " ++ guessCity ++
    ", <strong>" ++ g ++ "</strong></p>\n<p>📍 <strong>Correct Location:</strong> " ++
    actualCity ++ ", <strong>" ++ c ++ "</strong></p>"
  let backField :=
    if !(mapsLink == "") && !(mapsLink == "#") then
      backField ++ "\n<p>🔗 <a href=\"" ++ mapsLink ++
      "\" target=\"_blank\">View on Google Maps</a></p>"
    else backField
  let backField :=
    backField ++ "\n<p>🌎 <strong>Continent:</strong> <strong>" ++ continent ++
    "</strong></p>\n<p>🚗 <strong>Driving Side:</strong> <strong>" ++
    drivingSide ++ "</strong></p>"
  let backField :=
    if !(userMissedClues == "") && !(userMissedClues.trim == "") && !useDefaults then
      backField ++ "\n<h3>🛑 Key Clues You Missed:</h3>\n<p>" ++
      userMissedClues ++ "</p>"
    else
      backField ++ "\n<h3>🛑 Key Clues You Missed:</h3>\n<ul>" ++
      cluesHtml rd.missedClues c ++ "</ul>"
  let backField :=
    if !(userReminder == "") && !(userReminder.trim == "") && !useDefaults then
      backField ++ "\n<h3>Next Time, Remember:</h3>\n<p>⚡ <em>" ++
      userReminder ++ "</em></p>"
    else
      backField ++ "\n<h3>Next Time, Remember:</h3>\n<p>⚡ <em>\"If it looks like " ++
      g ++ " but has " ++ getSingleDistinctiveClue (some rd) ++ " → Think " ++
      c ++ "!\"</em></p>"
  { frontField := frontField
    backField := backField
    mapsLink := mapsLink
    actualCountry := rd.country
    guessCountry := rd.guessCountry
    roundKey := roundKey }

/-- Source: v1 `buildAnkiCardData()` (user.js lines 1304-1443): fails (returns
`null`) when the round key, the record, or either country is missing. -/
def buildAnkiCardData_v1 (roundKey : Option String)
    (roundData : Option RoundData) (userMissedClues userReminder : String)
    (st : Settings) : Option CardData :=
  match roundKey with
  | none => none
  | some rk =>
    if rk == "" then none
    else
      match roundData with
      | none => none
      | some rd =>
        if jsTruthy rd.country && jsTruthy rd.guessCountry then
          some (assembleCard rk rd userMissedClues userReminder st false)
        else none

/-- Source: v2 `buildAnkiCardData(useDefaults)` (v2 lines 1890-2053).  With
`useDefaults` (the instant-add path) a missing actual country falls back to
`extractCountryFromDOM()` (`domCountry`) and then to the literal
"Unknown Country"; a missing guess becomes "Unknown Guess".  Without
`useDefaults` the missing-country check fails as in v1. -/
def buildAnkiCardData (roundKey : Option String) (roundData : Option RoundData)
    (userMissedClues userReminder : String) (st : Settings)
    (useDefaults : Bool) (domCountry : Option String) : Option CardData :=
  match roundKey with
  | none => none
  | some rk =>
    if rk == "" then none
    else
      match roundData with
      | none => none
      | some rd =>
        if useDefaults then
          let rd :=
            if jsTruthy rd.country then rd
            else if jsTruthy domCountry then { rd with country := domCountry }
            else { rd with country := some "Unknown Country" }
          let rd :=
            if jsTruthy rd.guessCountry then rd
            else { rd with guessCountry := some "Unknown Guess" }
          some (assembleCard rk rd userMissedClues userReminder st true)
        else
          if jsTruthy rd.country && jsTruthy rd.guessCountry then
            some (assembleCard rk rd userMissedClues userReminder st false)
          else none

/-- The full `gameState` projection relevant to card compilation, including
ambient fields the compiler does not read (used to state that compilation
depends on nothing else). -/
structure GameStateM where
  currentRoundKey : Option String := none
  roundLocations : List (String × RoundData) := []
  userMissedClues : String := ""
  userReminder : String := ""
  settings : Settings := {}
  panoId : Option String := none
  heading : ℚ := 0
  pitch : ℚ := 0
  zoom : ℚ := 0
  score : ℚ := 0
  actualCountry : Option String := none
  guessCountry : Option String := none
  lastUrl : String := ""
deriving DecidableEq

/-- v1 `buildAnkiCardData` as read from the game state: it dereferences
`gameState.currentRoundKey`, `gameState.roundLocations[roundKey]`,
`gameState.userMissedClues`, `gameState.userReminder` and the settings, and
nothing else. -/
def buildAnkiCardDataState (gs : GameStateM) : Option CardData :=
  match gs.currentRoundKey with
  | none => none
  | some k =>
    buildAnkiCardData_v1 (some k) (lookupRecord gs.roundLocations k)
      gs.userMissedClues gs.userReminder gs.settings

/-- The actual-country language list, when the whole access path
`countryData.additionalInfo.languages` exists. -/
def actualLangs (r : RoundData) : Option (List String) :=
  r.countryData.bind fun cd => cd.additionalInfo.bind (·.languages)

/-- The guess-country language list, when the whole access path exists. -/
def guessLangs (r : RoundData) : Option (List String) :=
  r.guessCountryData.bind fun gd => gd.additionalInfo.bind (·.languages)

/-- Does the synthesized clue list contain a clue of the "Language"
category? -/
def hasLanguageClue (r : RoundData) : Bool :=
  (cluesFor r).any fun c => c.category == "Language"

/-! Concrete sample data used by counterexamples and witnesses. -/

/-- A France country fact as the game-API / geocoding path would produce it. -/
def cdFr : CountryData :=
  { country := "France"
    countryCode := some "FR"
    city := some "Paris"
    additionalInfo := some
      { tld := some ".fr"
        drivingSide := some "right"
        languages := some ["French"]
        currency := some "Euro"
        continent := some "Europe"
        capital := some "Paris" } }

/-- A United-States country fact. -/
def cdUSa : CountryData :=
  { country := "United States"
    countryCode := some "US"
    additionalInfo := some
      { tld := some ".us"
        drivingSide := some "right"
        languages := some ["English"]
        continent := some "North America" } }

/-- A round record whose guess country was already merged from the (rank-2)
game API while the actual country is still unresolved. -/
def rApiGuess : RoundData :=
  { guessCountry := some "France", guessCountryData := some cdFr }

/-- A superseded round's record the user has already acted on (card created),
with its guess country resolved to "United States". -/
def rStaleOld : RoundData :=
  { guessCountry := some "United States"
    guessCountryData := some cdUSa
    cardCreated := true }

/-- A store where the lifecycle has moved on to round key "k2" while round
"k1" still holds its completed record. -/
def sStale : StoreState :=
  { currentRoundKey := some "k2"
    roundLocations := [("k1", rStaleOld), ("k2", {})] }

/-- A record whose language lists denote the same set but differ as
multisets: actual `["Spanish"]`, guess `["Spanish", "Spanish"]`. -/
def rcDupLangs : RoundData :=
  { country := some "Spain"
    guessCountry := some "France"
    countryData := some
      { country := "Spain"
        additionalInfo := some { languages := some ["Spanish"] } }
    guessCountryData := some
      { country := "France"
        additionalInfo := some { languages := some ["Spanish", "Spanish"] } } }

/-- A record with duplicate-free, genuinely different language lists. -/
def rcDiffLangs : RoundData :=
  { country := some "France"
    guessCountry := some "Germany"
    countryData := some
      { country := "France"
        additionalInfo := some { languages := some ["French"] } }
    guessCountryData := some
      { country := "Germany"
        additionalInfo := some { languages := some ["German"] } } }

/-- A record where guess and actual agree (for the C3 witness). -/
def rSame : RoundData :=
  { country := some "France", guessCountry := some "France" }

/-- A record with a missing actual country but previously generated clues
(for the C9 witness). -/
def rMissingCountry : RoundData :=
  { guessCountry := some "France"
    guessCountryData := some cdFr
    missedClues := [⟨"Language", "stale clue from an earlier run"⟩] }

/-- A game state with a complete round record under the current key. -/
def gsA : GameStateM :=
  { currentRoundKey := some "game1-round-3"
    roundLocations := [("game1-round-3",
      { country := some "France", countryData := some cdFr,
        guessCountry := some "Germany" })]
    score := 0
    lastUrl := "https://www.geoguessr.com/game/a" }

/-- The same state with every compiler-irrelevant field changed. -/
def gsB : GameStateM :=
  { gsA with
    score := 4999
    lastUrl := "https://www.geoguessr.com/game/b"
    actualCountry := some "Italy"
    guessCountry := some "Italy"
    panoId := some "ab12"
    heading := 30
    pitch := 5
    zoom := 2 }

/-! Helper lemmas. -/

/-- Clamping a non-NaN JS number into `[lo, hi]` yields a finite value in
`[lo, hi]`. -/
theorem clampJs_fin (lo hi : ℚ) (h : lo ≤ hi) (x : JsNum) (hx : x.isNaN = false) :
    ∃ q, clampJs lo hi x = .fin q ∧ lo ≤ q ∧ q ≤ hi := by
  cases x with
  | nan => simp [JsNum.isNaN] at hx
  | posInf =>
    exact ⟨max lo hi, by simp [clampJs, jsMin, jsMax], le_max_left _ _, max_le h le_rfl⟩
  | negInf =>
    exact ⟨lo, by simp [clampJs, jsMin, jsMax], le_rfl, h⟩
  | fin q =>
    exact ⟨max lo (min hi q), by simp [clampJs, jsMin, jsMax], le_max_left _ _,
      max_le h (min_le_left _ _)⟩

/-- On finite inputs the sanitizer clamps componentwise. -/
theorem sanitize_fin (a b : ℚ) : sanitizeCoordinates (.fin a) (.fin b)
    = some ⟨max (-90) (min 90 a), max (-180) (min 180 b)⟩ := by
  simp [sanitizeCoordinates, clampJs, jsMin, jsMax, JsNum.isNaN]

/-- Any coordinate within the Chebyshev tolerance 0.2 of the documented
center matches the override table. -/
theorem checkCountryOverride_hit (lat lng : ℚ)
    (h1 : |lat - 40.97989806962013| ≤ 0.2) (h2 : |lng - (-67.5)| ≤ 0.2) :
    checkCountryOverride lat lng = some guatemalaOverride := by
  have ht : effectiveTolerance guatemalaOverride = 0.2 := by
    norm_num [effectiveTolerance, guatemalaOverride]
  have hp : (decide (|lat - guatemalaOverride.centerLat| ≤ effectiveTolerance guatemalaOverride) &&
      decide (|lng - guatemalaOverride.centerLng| ≤ effectiveTolerance guatemalaOverride)) = true := by
    rw [ht]
    simp only [guatemalaOverride, Bool.and_eq_true, decide_eq_true_eq]
    exact ⟨h1, h2⟩
  simp [checkCountryOverride, COUNTRY_OVERRIDES, List.find?, hp]

/-- On an override hit with `isGuess = false`, the v2 resolver applies the
entry without a network call and returns `undefined`. -/
theorem getCountry_override_actual (lat lng : ℚ) (o : OverrideEntry)
    (h : checkCountryOverride lat lng = some o)
    (nom : Option NominatimAddress) (rest : Option RestCountryInfo) :
    getCountryFromCoordinates (.fin lat) (.fin lng) false nom rest
      = ⟨none, false, some o⟩ := by
  unfold getCountryFromCoordinates
  rw [sanitize_fin]
  simp only [h]

/-- On an override hit the v1 resolver returns the override fact without a
network call. -/
theorem getCountryInfo_override (lat lng : ℚ) (o : OverrideEntry)
    (h : checkCountryOverride lat lng = some o)
    (nom : Option NominatimAddress) (rest : Option RestCountryInfo) :
    getCountryInfoFromCoordinates (.fin lat) (.fin lng) nom rest
      = ⟨some (overrideCountryData o), false, some o⟩ := by
  unfold getCountryInfoFromCoordinates
  rw [sanitize_fin]
  simp only [h]

/-- On an override hit with `isGuess = true`, the v2 resolver still issues the
geocoding call (here shown with both services failing). -/
theorem getCountry_override_guess (lat lng : ℚ) (o : OverrideEntry)
    (h : checkCountryOverride lat lng = some o) :
    getCountryFromCoordinates (.fin lat) (.fin lng) true none none
      = ⟨none, true, none⟩ := by
  unfold getCountryFromCoordinates
  rw [sanitize_fin]
  simp only [h]
  rfl

/-- `decodePairs` halves the length, dropping a trailing odd digit. -/
theorem decodePairs_length : ∀ l : List Char, (decodePairs l).length = l.length / 2
  | [] => by simp [decodePairs]
  | [c] => by simp [decodePairs]
  | c1 :: c2 :: rest => by
    have ih := decodePairs_length rest
    simp [decodePairs, ih]
    omega

theorem drivingClue_cat (r : RoundData) (c : Clue) (h : drivingClue r = some c) :
    c.category = "Driving Side" := by
  unfold drivingClue at h
  repeat' split at h
  all_goals try (injection h with h2; rw [← h2])
  all_goals simp_all

theorem langClue_cat (r : RoundData) (c : Clue) (h : langClue r = some c) :
    c.category = "Language" := by
  unfold langClue at h
  repeat' split at h
  all_goals try (injection h with h2; rw [← h2])
  all_goals simp_all

theorem tldClue_cat (r : RoundData) (c : Clue) (h : tldClue r = some c) :
    c.category = "Internet TLD" := by
  unfold tldClue at h
  repeat' split at h
  all_goals try (injection h with h2; rw [← h2])
  all_goals simp_all

theorem regionClue_cat (r : RoundData) (c : Clue) (h : regionClue r = some c) :
    c.category = "Geographic Region" := by
  unfold regionClue at h
  repeat' split at h
  all_goals try (injection h with h2; rw [← h2])
  all_goals simp_all

theorem coverageClue_cat (r : RoundData) (c : Clue) (h : coverageClue r = some c) :
    c.category = "Coverage Type" := by
  unfold coverageClue at h
  repeat' split at h
  all_goals try (injection h with h2; rw [← h2])
  all_goals simp_all

/-- An optional clue of a category other than "Language" contributes no
"Language" match. -/
theorem optAnyNotLang (o : Option Clue) (cat : String)
    (hcat : ∀ c, o = some c → c.category = cat) (hne : (cat == "Language") = false) :
    (o.toList.any fun c => c.category == "Language") = false := by
  cases o with
  | none => rfl
  | some c =>
    have := hcat c rfl
    simp [this, hne]

/-- On the clue-generating path, a "Language" clue is present exactly when
`langClue` fires. -/
theorem hasLanguage_eq_isSome (r : RoundData)
    (hc : jsTruthy r.country = true) (hg : jsTruthy r.guessCountry = true)
    (hne : r.country ≠ r.guessCountry) :
    hasLanguageClue r = (langClue r).isSome := by
  have hclues : cluesFor r =
      if (cluesBase r).length < 2 then cluesBase r ++ [genericClue r]
      else cluesBase r := by
    simp [cluesFor, hc, hg, hne]
  have hbase : ((cluesBase r).any fun c => c.category == "Language")
      = (langClue r).isSome := by
    unfold cluesBase
    simp only [List.any_append]
    rw [optAnyNotLang (drivingClue r) _ (drivingClue_cat r) (by decide),
        optAnyNotLang (tldClue r) _ (tldClue_cat r) (by decide),
        optAnyNotLang (regionClue r) _ (regionClue_cat r) (by decide),
        optAnyNotLang (coverageClue r) _ (coverageClue_cat r) (by decide)]
    cases hl : langClue r with
    | none => simp
    | some c => simp [langClue_cat r c hl]
  unfold hasLanguageClue
  rw [hclues]
  by_cases hl2 : (cluesBase r).length < 2
  · rw [if_pos hl2]
    rw [List.any_append, hbase]
    simp [genericClue]
  · rw [if_neg hl2]
    exact hbase

/-- `langClue` fires exactly when `arraysHaveSameElements` rejects the two
language lists. -/
theorem langClue_isSome_eq (r : RoundData) (a g : List String)
    (ha : actualLangs r = some a) (hgl : guessLangs r = some g) :
    (langClue r).isSome = !(arraysHaveSameElements a g) := by
  simp only [actualLangs, Option.bind_eq_some] at ha
  obtain ⟨cd, hcd, ai, hai, hla⟩ := ha
  simp only [guessLangs, Option.bind_eq_some] at hgl
  obtain ⟨gd, hgd, gi, hgi, hlg⟩ := hgl
  unfold langClue
  rw [hcd, hgd]
  simp only [hai, hgi, hla, hlg]
  by_cases harr : arraysHaveSameElements a g <;> simp [harr]

/-- For duplicate-free lists, `arraysHaveSameElements` coincides with set
equality. -/
theorem arrays_iff_toFinset (a g : List String) (hna : a.Nodup) (hng : g.Nodup) :
    arraysHaveSameElements a g = true ↔ a.toFinset = g.toFinset := by
  unfold arraysHaveSameElements
  by_cases hlen : a.length = g.length
  · rw [if_neg (by omega)]
    simp only [List.all_eq_true, decide_eq_true_eq]
    constructor
    · intro hsub
      have hss : g.toFinset ⊆ a.toFinset := by
        intro x hx
        rw [List.mem_toFinset] at *
        exact hsub x hx
      have hcard : a.toFinset.card ≤ g.toFinset.card := by
        rw [List.toFinset_card_of_nodup hna, List.toFinset_card_of_nodup hng]
        omega
      exact (Finset.eq_of_subset_of_card_le hss hcard).symm
    · intro h x hx
      have hxg : x ∈ g.toFinset := List.mem_toFinset.mpr hx
      rw [← h] at hxg
      exact List.mem_toFinset.mp hxg
  · rw [if_pos (by omega)]
    constructor
    · intro h
      cases h
    · intro h
      exfalso
      apply hlen
      have hcards := congrArg Finset.card h
      rwa [List.toFinset_card_of_nodup hna, List.toFinset_card_of_nodup hng] at hcards

/-! Claim theorems. -/

/-- Claim C1 (code bug): the merge is NOT rank-monotonic.  In `handleRoundEnd`,
when the actual country is still unresolved, the DOM-text fallback (lowest
rank) unconditionally overwrites a guess country previously merged from the
game API (rank 2): starting from a record whose guess is the API fact
"France", a DOM result screen reading actual "Germany" / "You guessed Italy"
replaces the guess by "Italy".  The spec (section 3 invariant, section 9 note)
declares rank-monotonic merge the intended behavior. -/
theorem merge_not_rank_monotonic :
    rApiGuess.guessCountry = some "France"
    ∧ (handleRoundEnd (some rApiGuess) {} (some "Germany") (some "Italy")).country
        = some "Germany"
    ∧ (handleRoundEnd (some rApiGuess) {} (some "Germany") (some "Italy")).guessCountry
        = some "Italy" := by
  exact ⟨by decide, by decide, by decide⟩

/-- Claim C2 (counterexample): at the documented override coordinate, the v2
resolver called in the Guess role bypasses the override table and issues a
geocoding call, returning the geocoded (here: failed, hence null) result
rather than the override fact. -/
theorem guess_role_bypasses_override :
    (checkCountryOverride 40.97989806962013 (-67.5)).isSome = true
    ∧ getCountryFromCoordinates (.fin 40.97989806962013) (.fin (-67.5)) true none none
        = ⟨none, true, none⟩ := by
  have h := checkCountryOverride_hit 40.97989806962013 (-67.5)
    (by rw [abs_le]; norm_num) (by rw [abs_le]; norm_num)
  exact ⟨by rw [h]; rfl, getCountry_override_guess _ _ _ h⟩

/-- Claim C2 (amended): for every coordinate whose Chebyshev distance from the
override center (40.97989806962013, -67.5) is within the tolerance 0.2,
resolution in the ACTUAL role short-circuits in both scripts — no
geocoding-service call is made and the entry is applied (v1 returns the fact,
v2 merges it via `processCountryOverride` and returns `undefined`) — and the
v1 resolver short-circuits for every role; the applied fact has country
"Guatemala".  (The Guess role of the v2 resolver bypasses the override, see
the counterexample.) -/
theorem override_short_circuit_actual (lat lng : ℚ)
    (h1 : |lat - 40.97989806962013| ≤ 0.2) (h2 : |lng - (-67.5)| ≤ 0.2)
    (nom : Option NominatimAddress) (rest : Option RestCountryInfo) :
    checkCountryOverride lat lng = some guatemalaOverride
    ∧ getCountryFromCoordinates (.fin lat) (.fin lng) false nom rest
        = ⟨none, false, some guatemalaOverride⟩
    ∧ getCountryInfoFromCoordinates (.fin lat) (.fin lng) nom rest
        = ⟨some (overrideCountryData guatemalaOverride), false, some guatemalaOverride⟩
    ∧ (overrideCountryData guatemalaOverride).country = "Guatemala" := by
  have h := checkCountryOverride_hit lat lng h1 h2
  exact ⟨h, getCountry_override_actual lat lng _ h nom rest,
    getCountryInfo_override lat lng _ h nom rest, rfl⟩

/-- Witness for C2 at the concrete coordinate (41, -67.4). -/
theorem override_short_circuit_actual_witness :
    checkCountryOverride 41 (-67.4) = some guatemalaOverride
    ∧ getCountryFromCoordinates (.fin 41) (.fin (-67.4)) false none none
        = ⟨none, false, some guatemalaOverride⟩
    ∧ getCountryInfoFromCoordinates (.fin 41) (.fin (-67.4)) none none
        = ⟨some (overrideCountryData guatemalaOverride), false, some guatemalaOverride⟩
    ∧ (overrideCountryData guatemalaOverride).country = "Guatemala" :=
  override_short_circuit_actual 41 (-67.4)
    (by rw [abs_le]; norm_num) (by rw [abs_le]; norm_num) none none

/-- Claim C3: when both countries are present (truthy), the synthesized clue
list is empty exactly when the two country strings are equal; moreover the
internal-error path always produces a non-empty list ending in the generic
fallback clue that references the actual country. -/
theorem synthesize_empty_iff_same_country (r : RoundData)
    (hc : jsTruthy r.country = true) (hg : jsTruthy r.guessCountry = true) :
    (cluesFor r = [] ↔ r.country = r.guessCountry)
    ∧ ∀ partialClues, prepareCountryCluesOnError r partialClues ≠ [] := by
  constructor
  · by_cases he : r.country = r.guessCountry
    · simp [cluesFor, hc, hg, he]
    · have hval : cluesFor r =
          if (cluesBase r).length < 2 then cluesBase r ++ [genericClue r]
          else cluesBase r := by
        simp [cluesFor, hc, hg, he]
      rw [hval]
      constructor
      · intro hnil
        exfalso
        by_cases hl : (cluesBase r).length < 2
        · rw [if_pos hl] at hnil
          simp at hnil
        · rw [if_neg hl] at hnil
          rw [hnil] at hl
          simp at hl
      · intro hcontra
        exact absurd hcontra he
  · intro p
    simp [prepareCountryCluesOnError]

/-- Witness for C3: a record whose guess equals the actual country gets an
empty clue list. -/
theorem synthesize_empty_iff_same_country_witness : cluesFor rSame = [] :=
  (synthesize_empty_iff_same_country rSame (by decide) (by decide)).1.mpr (by decide)

/-- Claim C4 (counterexample): the v2 instant-add path (`useDefaults = true`)
does build a card for a round record with no resolvable country at all —
fabricating the placeholder "Unknown Country" as the actual country — instead
of returning the failure value. -/
theorem instant_add_fabricates_unknown_country :
    ({} : RoundData).country = none
    ∧ (buildAnkiCardData (some "k") (some {}) "" "" {} true none).map (·.actualCountry)
        = some (some "Unknown Country") := by
  exact ⟨by decide, by decide⟩

/-- Claim C4 (amended): on the standard card-creation path (`useDefaults =
false`, and the whole of the v1 compiler) the card compiler refuses — returns
the failure value `none` — whenever the actual or the guess country is
missing; only the v2 instant-add path substitutes fabricated placeholders. -/
theorem card_refused_without_country (rk : String) (rd : RoundData)
    (um ur : String) (st : Settings) (dom : Option String)
    (h : jsTruthy rd.country = false ∨ jsTruthy rd.guessCountry = false) :
    buildAnkiCardData (some rk) (some rd) um ur st false dom = none
    ∧ buildAnkiCardData_v1 (some rk) (some rd) um ur st = none := by
  constructor
  · unfold buildAnkiCardData
    cases hk : (rk == "") with
    | true => simp [hk]
    | false => rcases h with h | h <;> simp [hk, h]
  · unfold buildAnkiCardData_v1
    cases hk : (rk == "") with
    | true => simp [hk]
    | false => rcases h with h | h <;> simp [hk, h]

/-- Witness for C4 at a concrete record with no actual country. -/
theorem card_refused_without_country_witness :
    buildAnkiCardData (some "k") (some rMissingCountry) "" "" {} false none = none
    ∧ buildAnkiCardData_v1 (some "k") (some rMissingCountry) "" "" {} = none :=
  card_refused_without_country "k" rMissingCountry "" "" {} none (Or.inl (by decide))

/-- Claim C5 (code bug): a geocoding call issued through v1
`processLocationData` for round key "k1" captures that round record; when the
lifecycle has since advanced to "k2", the late resolution still mutates the
superseded record "k1" (its guess country flips from "United States" to
"France" although the user already created a card from it). -/
theorem stale_guess_callback_mutates_superseded_record :
    sStale.currentRoundKey = some "k2"
    ∧ (lookupRecord sStale.roundLocations "k1").map (·.guessCountry)
        = some (some "United States")
    ∧ (lookupRecord (resolveGeocode (.v1Guess "k1") cdFr "gen" sStale).roundLocations
        "k1").map (·.guessCountry) = some (some "France") := by
  exact ⟨by decide, by decide, by decide⟩

/-- Claim C6 (counterexample): the language lists `["Spanish"]` and
`["Spanish", "Spanish"]` denote the same set, yet clue generation on a record
carrying them emits a Language clue — so emission is not governed by
order-independent set equality. -/
theorem language_clue_despite_equal_sets :
    (["Spanish"] : List String).toFinset = (["Spanish", "Spanish"] : List String).toFinset
    ∧ actualLangs rcDupLangs = some ["Spanish"]
    ∧ guessLangs rcDupLangs = some ["Spanish", "Spanish"]
    ∧ hasLanguageClue rcDupLangs = true := by
  exact ⟨by rfl, by decide, by decide, by decide⟩

/-- Claim C6 (amended): on the clue-generating path (truthy, differing
countries; both language lists present), the language clue is emitted iff the
lists fail `arraysHaveSameElements` (equal length and guess-list containment);
for DUPLICATE-FREE lists this coincides with the spec: the clue is emitted iff
the two lists denote different sets. -/
theorem language_clue_iff_set_inequality_nodup (r : RoundData)
    (a g : List String)
    (hc : jsTruthy r.country = true) (hg : jsTruthy r.guessCountry = true)
    (hne : r.country ≠ r.guessCountry)
    (ha : actualLangs r = some a) (hgl : guessLangs r = some g)
    (hna : a.Nodup) (hng : g.Nodup) :
    hasLanguageClue r = true ↔ ¬ a.toFinset = g.toFinset := by
  rw [hasLanguage_eq_isSome r hc hg hne, langClue_isSome_eq r a g ha hgl,
    ← arrays_iff_toFinset a g hna hng]
  cases arraysHaveSameElements a g <;> simp

/-- Witness for C6: genuinely different duplicate-free language lists produce
a language clue. -/
theorem language_clue_iff_set_inequality_nodup_witness :
    hasLanguageClue rcDiffLangs = true :=
  (language_clue_iff_set_inequality_nodup rcDiffLangs ["French"] ["German"]
    (by decide) (by decide) (by decide) (by decide) (by decide) (by decide)
    (by decide)).mpr (by decide)

/-- Claim C7 (counterexample): a positive-Infinity latitude is NOT rejected by
the sanitizer; it is clamped to 90 (JS `isNaN(Infinity)` is false, and
`Math.min(90, Infinity) = 90`). -/
theorem infinity_clamped_not_rejected :
    JsNum.posInf.isNaN = false
    ∧ sanitizeCoordinates .posInf (.fin 0) = some ⟨90, 0⟩ := by
  refine ⟨by decide, ?_⟩
  norm_num [sanitizeCoordinates, clampJs, jsMin, jsMax, JsNum.isNaN]

/-- Claim C7 (amended): the coordinate sanitizer is total and never throws; it
returns the invalid marker exactly when a component is NaN, and otherwise —
including for infinite components — a coordinate clamped into
-90 ≤ lat ≤ 90, -180 ≤ lng ≤ 180. -/
theorem sanitizeCoordinates_total_clamps (lat lng : JsNum) :
    (sanitizeCoordinates lat lng = none ↔ (lat.isNaN || lng.isNaN) = true)
    ∧ ∀ c, sanitizeCoordinates lat lng = some c →
        -90 ≤ c.lat ∧ c.lat ≤ 90 ∧ -180 ≤ c.lng ∧ c.lng ≤ 180 := by
  by_cases hn : (lat.isNaN || lng.isNaN) = true
  · constructor
    · simp [sanitizeCoordinates, hn]
    · intro c hc
      simp [sanitizeCoordinates, hn] at hc
  · have hlat : lat.isNaN = false := by
      cases hl : lat.isNaN <;> simp_all
    have hlng : lng.isNaN = false := by
      cases hl : lng.isNaN <;> simp_all
    obtain ⟨a, ha, ha1, ha2⟩ := clampJs_fin (-90) 90 (by norm_num) lat hlat
    obtain ⟨b, hb, hb1, hb2⟩ := clampJs_fin (-180) 180 (by norm_num) lng hlng
    have hs : sanitizeCoordinates lat lng = some ⟨a, b⟩ := by
      simp [sanitizeCoordinates, hn, ha, hb]
    constructor
    · simp [hs, hn]
    · intro c hc
      rw [hs] at hc
      cases hc
      exact ⟨ha1, ha2, hb1, hb2⟩

/-- Witness for C7 at the out-of-range finite input (100, 0), which is clamped
to (90, 0). -/
theorem sanitizeCoordinates_total_clamps_witness :
    -90 ≤ (Coord.mk 90 0).lat ∧ (Coord.mk 90 0).lat ≤ 90
    ∧ -180 ≤ (Coord.mk 90 0).lng ∧ (Coord.mk 90 0).lng ≤ 180 :=
  (sanitizeCoordinates_total_clamps (.fin 100) (.fin 0)).2 ⟨90, 0⟩
    (by rw [sanitize_fin]; norm_num)

/-- Claim C8: card compilation is deterministic and depends on nothing outside
its inputs — any two game states agreeing on the round key, the round-record
map, the two user-override fields and the settings (but arbitrary elsewhere)
compile to the same card. -/
theorem compile_depends_only_on_inputs (s1 s2 : GameStateM)
    (h1 : s1.currentRoundKey = s2.currentRoundKey)
    (h2 : s1.roundLocations = s2.roundLocations)
    (h3 : s1.userMissedClues = s2.userMissedClues)
    (h4 : s1.userReminder = s2.userReminder)
    (h5 : s1.settings = s2.settings) :
    buildAnkiCardDataState s1 = buildAnkiCardDataState s2 := by
  unfold buildAnkiCardDataState
  rw [h1, h2, h3, h4, h5]

/-- Witness for C8: two states differing in score, URL, pano data and country
mirrors compile identically. -/
theorem compile_depends_only_on_inputs_witness :
    buildAnkiCardDataState gsA = buildAnkiCardDataState gsB :=
  compile_depends_only_on_inputs gsA gsB rfl rfl rfl rfl rfl

/-- Claim C9: when the actual or the guess country is absent (falsy), running
clue generation stores the empty list into the record, replacing any
previously generated clues. -/
theorem clue_generation_clears_on_missing_country (r : RoundData)
    (h : jsTruthy r.country = false ∨ jsTruthy r.guessCountry = false) :
    (prepareCountryClues r).missedClues = [] := by
  have hz : cluesFor r = [] := by
    rcases h with h | h <;> simp [cluesFor, h]
  simp [prepareCountryClues, hz]

/-- Witness for C9: a record with stale clues and no actual country is reset
to an empty clue list. -/
theorem clue_generation_clears_on_missing_country_witness :
    (prepareCountryClues rMissingCountry).missedClues = [] :=
  clue_generation_clears_on_missing_country rMissingCountry (Or.inl (by decide))

/-- Claim C10: the panorama-id decoder is total: empty input and input failing
the hexadecimal test yield the empty string, and a hexadecimal input of length
n decodes to exactly n / 2 characters (a trailing odd digit is dropped). -/
theorem panoIdDecoder_total_spec (s : String) :
    (s = "" → panoIdDecoder s = "")
    ∧ (s.data.all isHexDigitChar = false → panoIdDecoder s = "")
    ∧ (s ≠ "" → s.data.all isHexDigitChar = true →
        (panoIdDecoder s).length = s.length / 2) := by
  refine ⟨fun h => by simp [panoIdDecoder, h],
    fun h => by simp [panoIdDecoder, h], ?_⟩
  intro hne hall
  have h1 : (s == "") = false := by simp [hne]
  have h2 : (!(s.data.all isHexDigitChar)) = false := by simp [hall]
  simp only [panoIdDecoder, h1, h2, Bool.false_eq_true, if_false]
  show (decodePairs s.data).length = s.data.length / 2
  exact decodePairs_length s.data

/-- Witness for C10: the 4-digit hex input "ab12" decodes to 2 characters. -/
theorem panoIdDecoder_total_spec_witness :
    (panoIdDecoder "ab12").length = "ab12".length / 2 :=
  (panoIdDecoder_total_spec "ab12").2.2 (by decide) (by decide)

end GeoAnki
